import Mathlib

/-!
Shallow embedding of the `vlan-rs` library (`src/lib.rs`): IEEE 802.1Q VLAN
identifier value types.  Machine integers (`u16`) are modelled as `Nat`; all
inputs of interest are below `2 ^ 16` and no arithmetic in the library can
overflow, so no wrap-around modelling is needed.  Fallible constructors
(`Result<T, InvalidVlanId>`) are modelled with `Except InvalidVlanId`.
-/

/-- Error value for an invalid VLAN ID (`struct InvalidVlanId`, lib.rs:24). -/
inductive InvalidVlanId : Type where
  | mk : InvalidVlanId
deriving DecidableEq

/-- Zero-sized marker for the native (untagged) VLAN
(`struct NativeVlanId`, lib.rs:39). -/
structure NativeVlanId : Type where
deriving DecidableEq

/-- The `NativeVlanId::VALUE` associated constant (lib.rs:42). -/
def NativeVlanId.VALUE : Nat := 0

/-- The unit constructor of `NativeVlanId` (the Rust unit-struct literal
`NativeVlanId`); every instance of the type is interchangeable. -/
def NativeVlanId.default : NativeVlanId := {}

/-- Non-zero tagged VLAN ID (`struct VlanId`, lib.rs:106-108).  The Rust
source stores a `NonZero<u16>`; here the payload is a plain `Nat` and the
non-zero/range invariant is proved about reachable values instead of being
baked into the type. -/
structure VlanId : Type where
  inner : Nat
deriving DecidableEq

/-- `VlanId::MIN_VALUE` (lib.rs:111). -/
def VlanId.MIN_VALUE : Nat := 1

/-- `VlanId::MAX_VALUE` (lib.rs:112). -/
def VlanId.MAX_VALUE : Nat := 4094

/-- `VlanId::new_unchecked` (lib.rs:133-137): wraps a value with no check. -/
def VlanId.new_unchecked (value : Nat) : VlanId := ⟨value⟩

/-- `VlanId::MIN` (lib.rs:115). -/
def VlanId.MIN : VlanId := VlanId.new_unchecked VlanId.MIN_VALUE

/-- `VlanId::MAX` (lib.rs:118). -/
def VlanId.MAX : VlanId := VlanId.new_unchecked VlanId.MAX_VALUE

/-- `VlanId::ONE` (lib.rs:121). -/
def VlanId.ONE : VlanId := VlanId.MIN

/-- `VlanId::try_new` (lib.rs:123-131): succeeds iff the value is in
`[MIN_VALUE, MAX_VALUE]`. -/
def VlanId.try_new (vlan : Nat) : Except InvalidVlanId VlanId :=
  if vlan < VlanId.MIN_VALUE ∨ vlan > VlanId.MAX_VALUE then
    Except.error InvalidVlanId.mk
  else
    Except.ok { inner := vlan }

/-- `impl TryFrom<u16> for VlanId` (lib.rs:154-160): delegates to `try_new`. -/
def VlanId.try_from (value : Nat) : Except InvalidVlanId VlanId :=
  VlanId.try_new value

/-- `VlanId::as_u16` (lib.rs:143-145). -/
def VlanId.as_u16 (v : VlanId) : Nat := v.inner

/-- VLAN ID that may be the native VLAN
(`enum MaybeVlanId`, lib.rs:218-224). -/
inductive MaybeVlanId : Type where
  | Native : NativeVlanId → MaybeVlanId
  | Tagged : VlanId → MaybeVlanId
deriving DecidableEq

/-- `MaybeVlanId::NATIVE` (lib.rs:237). -/
def MaybeVlanId.NATIVE : MaybeVlanId := MaybeVlanId.Native {}

/-- `MaybeVlanId::MIN_TAGGED_VLAN` (lib.rs:239). -/
def MaybeVlanId.MIN_TAGGED_VLAN : MaybeVlanId := MaybeVlanId.Tagged VlanId.MIN

/-- `MaybeVlanId::MAX_TAGGED_VLAN` (lib.rs:240). -/
def MaybeVlanId.MAX_TAGGED_VLAN : MaybeVlanId := MaybeVlanId.Tagged VlanId.MAX

/-- `MaybeVlanId::tagged` (lib.rs:243-245). -/
def MaybeVlanId.tagged (vlan : VlanId) : MaybeVlanId := MaybeVlanId.Tagged vlan

/-- `MaybeVlanId::as_u16` (lib.rs:247-252): the `Tagged` arm returns the inner
value, the wildcard arm returns 0. -/
def MaybeVlanId.as_u16 (m : MaybeVlanId) : Nat :=
  match m with
  | MaybeVlanId.Tagged vlan => vlan.as_u16
  | _ => 0

/-- `MaybeVlanId::try_new` (lib.rs:254-262): 0 maps to `NATIVE`, values in
`[MIN_VALUE, MAX_VALUE]` map to `Tagged` via the unchecked constructor,
everything else is an error. -/
def MaybeVlanId.try_new (vlan : Nat) : Except InvalidVlanId MaybeVlanId :=
  if vlan = 0 then
    Except.ok MaybeVlanId.NATIVE
  else if VlanId.MIN_VALUE ≤ vlan ∧ vlan ≤ VlanId.MAX_VALUE then
    Except.ok (MaybeVlanId.Tagged (VlanId.new_unchecked vlan))
  else
    Except.error InvalidVlanId.mk

/-- `impl TryFrom<u16> for MaybeVlanId` (lib.rs:271-277). -/
def MaybeVlanId.try_from (value : Nat) : Except InvalidVlanId MaybeVlanId :=
  MaybeVlanId.try_new value

/-- `impl From<MaybeVlanId> for u16` (lib.rs:279-283): calls `as_u16`. -/
def u16_from_MaybeVlanId (val : MaybeVlanId) : Nat := val.as_u16

/-- `impl Display for MaybeVlanId` (lib.rs:265-269): renders `as_u16` in
decimal. -/
def MaybeVlanId.display (m : MaybeVlanId) : String := toString m.as_u16

/-- The `AsRawVlanId` trait (lib.rs:10-20): conversion to the raw `u16`. -/
class AsRawVlanId (α : Type) where
  as_raw_vlan_id : α → Nat

/-- The trait's provided method `as_be_bytes` (lib.rs:17-19):
`u16::to_be_bytes` of the raw value, i.e. the high byte followed by the low
byte. -/
def AsRawVlanId.as_be_bytes {α : Type} [AsRawVlanId α] (x : α) : List Nat :=
  [AsRawVlanId.as_raw_vlan_id x / 256 % 256, AsRawVlanId.as_raw_vlan_id x % 256]

/-- `impl AsRawVlanId for NativeVlanId` (lib.rs:51-55): always `VALUE`. -/
def NativeVlanId.as_raw_vlan_id (_ : NativeVlanId) : Nat := NativeVlanId.VALUE

instance : AsRawVlanId NativeVlanId where
  as_raw_vlan_id := NativeVlanId.as_raw_vlan_id

/-- `impl AsRawVlanId for VlanId` (lib.rs:180-184): the inner value. -/
def VlanId.as_raw_vlan_id (v : VlanId) : Nat := v.inner

instance : AsRawVlanId VlanId where
  as_raw_vlan_id := VlanId.as_raw_vlan_id

/-- `impl AsRawVlanId for MaybeVlanId` (lib.rs:291-298). -/
def MaybeVlanId.as_raw_vlan_id (m : MaybeVlanId) : Nat :=
  match m with
  | MaybeVlanId.Native _ => 0
  | MaybeVlanId.Tagged vlan => vlan.as_raw_vlan_id

instance : AsRawVlanId MaybeVlanId where
  as_raw_vlan_id := MaybeVlanId.as_raw_vlan_id

/-- `impl TryFrom<u16> for NativeVlanId` (lib.rs:69-79): succeeds only on
`VALUE` (0). -/
def NativeVlanId.try_from (value : Nat) : Except InvalidVlanId NativeVlanId :=
  if value = NativeVlanId.VALUE then
    Except.ok {}
  else
    Except.error InvalidVlanId.mk

/-- The shared body of the `PartialEq<Rhs: AsRawVlanId>` impls for
`NativeVlanId` (lib.rs:81-85), `VlanId` (lib.rs:186-190) and `MaybeVlanId`
(lib.rs:300-304): compare raw values. -/
def eqByRaw {α β : Type} [AsRawVlanId α] [AsRawVlanId β] (a : α) (b : β) :
    Bool :=
  AsRawVlanId.as_raw_vlan_id a == AsRawVlanId.as_raw_vlan_id b

/-- The shared body of the `PartialOrd<Rhs: AsRawVlanId>` impls for
`NativeVlanId` (lib.rs:87-91), `VlanId` (lib.rs:192-196) and `MaybeVlanId`
(lib.rs:306-310): `Some` of the comparison of raw values. -/
def cmpByRaw {α β : Type} [AsRawVlanId α] [AsRawVlanId β] (a : α) (b : β) :
    Option Ordering :=
  some (compare (AsRawVlanId.as_raw_vlan_id a) (AsRawVlanId.as_raw_vlan_id b))

/-- The `VlanId` values producible through the library's public surface:
`try_new` (lib.rs:123), `TryFrom<u16>` (lib.rs:154), the `MIN`/`MAX`/`ONE`
constants (lib.rs:115-121), and the `Tagged` payloads built inside
`MaybeVlanId::try_new` (lib.rs:258). -/
inductive VlanId.Reachable : VlanId → Prop where
  | of_try_new (v : Nat) (w : VlanId) :
      VlanId.try_new v = Except.ok w → VlanId.Reachable w
  | of_try_from (v : Nat) (w : VlanId) :
      VlanId.try_from v = Except.ok w → VlanId.Reachable w
  | of_min : VlanId.Reachable VlanId.MIN
  | of_max : VlanId.Reachable VlanId.MAX
  | of_one : VlanId.Reachable VlanId.ONE
  | of_maybe_try_new (v : Nat) (w : VlanId) :
      MaybeVlanId.try_new v = Except.ok (MaybeVlanId.Tagged w) →
      VlanId.Reachable w

/-!
Helper lemmas shared by the claim theorems.
-/

theorem vlanId_try_new_ok_inner {v : Nat} {w : VlanId}
    (h : VlanId.try_new v = Except.ok w) :
    w.inner = v ∧ 1 ≤ v ∧ v ≤ 4094 := by
  unfold VlanId.try_new at h
  split at h
  · exact absurd h (by simp)
  · next hcond =>
    cases h
    unfold VlanId.MIN_VALUE VlanId.MAX_VALUE at hcond
    exact ⟨rfl, by omega, by omega⟩

theorem maybeVlanId_try_new_ok_tagged_inner {v : Nat} {w : VlanId}
    (h : MaybeVlanId.try_new v = Except.ok (MaybeVlanId.Tagged w)) :
    w.inner = v ∧ 1 ≤ v ∧ v ≤ 4094 := by
  unfold MaybeVlanId.try_new at h
  split at h
  · simp [MaybeVlanId.NATIVE] at h
  · split at h
    · next hcond =>
      unfold VlanId.MIN_VALUE VlanId.MAX_VALUE at hcond
      simp [VlanId.new_unchecked] at h
      exact ⟨by rw [← h], hcond.1, hcond.2⟩
    · exact absurd h (by simp)

/-!
Claim theorems.
-/

deriving instance DecidableEq for Except

/-- C1: for every `u16` input `v`, `VlanId::try_new v` returns `Ok` iff
`1 ≤ v ≤ 4094` and returns `Err(InvalidVlanId)` otherwise; in particular the
boundary inputs 0, 4095 and 65535 fail while 1 and 4094 succeed. -/
theorem vlanId_try_new_bounds (v : Nat) (hv : v < 65536) :
    ((VlanId.try_new v).isOk = true ↔ (1 ≤ v ∧ v ≤ 4094)) ∧
    (¬ (1 ≤ v ∧ v ≤ 4094) → VlanId.try_new v = Except.error InvalidVlanId.mk) ∧
    (VlanId.try_new 0).isOk = false ∧
    (VlanId.try_new 4095).isOk = false ∧
    (VlanId.try_new 65535).isOk = false ∧
    (VlanId.try_new 1).isOk = true ∧
    (VlanId.try_new 4094).isOk = true := by
  refine ⟨?_, ?_, by decide, by decide, by decide, by decide, by decide⟩
  · unfold VlanId.try_new VlanId.MIN_VALUE VlanId.MAX_VALUE
    split
    · next h =>
      simp [Except.isOk, Except.toBool]
      omega
    · next h =>
      simp [Except.isOk, Except.toBool]
      omega
  · intro hrange
    unfold VlanId.try_new VlanId.MIN_VALUE VlanId.MAX_VALUE
    rw [if_pos (by omega)]

/-- Witness for C1 at the concrete input 2. -/
theorem vlanId_try_new_bounds_witness :
    (2 : Nat) < 65536 ∧
    (((VlanId.try_new 2).isOk = true ↔ (1 ≤ (2 : Nat) ∧ (2 : Nat) ≤ 4094)) ∧
    (¬ (1 ≤ (2 : Nat) ∧ (2 : Nat) ≤ 4094) →
      VlanId.try_new 2 = Except.error InvalidVlanId.mk) ∧
    (VlanId.try_new 0).isOk = false ∧
    (VlanId.try_new 4095).isOk = false ∧
    (VlanId.try_new 65535).isOk = false ∧
    (VlanId.try_new 1).isOk = true ∧
    (VlanId.try_new 4094).isOk = true) :=
  ⟨by decide, vlanId_try_new_bounds 2 (by decide)⟩

/-- C2: for every `u16` input `v`, `MaybeVlanId::try_new v` classifies 0 as
`NATIVE`, values in `[1, 4094]` as `Tagged v`, and everything in
`[4095, 65535]` as `Err(InvalidVlanId)`; in particular 0, 1 and 4094 map to
the `NATIVE`, `MIN_TAGGED_VLAN` and `MAX_TAGGED_VLAN` constants. -/
theorem maybeVlanId_try_new_classify (v : Nat) (hv : v < 65536) :
    (v = 0 → MaybeVlanId.try_new v = Except.ok MaybeVlanId.NATIVE) ∧
    (1 ≤ v ∧ v ≤ 4094 →
      MaybeVlanId.try_new v =
        Except.ok (MaybeVlanId.Tagged (VlanId.new_unchecked v))) ∧
    (4095 ≤ v → MaybeVlanId.try_new v = Except.error InvalidVlanId.mk) ∧
    MaybeVlanId.try_new 0 = Except.ok MaybeVlanId.NATIVE ∧
    MaybeVlanId.try_new 1 = Except.ok MaybeVlanId.MIN_TAGGED_VLAN ∧
    MaybeVlanId.try_new 4094 = Except.ok MaybeVlanId.MAX_TAGGED_VLAN := by
  refine ⟨?_, ?_, ?_, by decide, by decide, by decide⟩
  · intro h0
    unfold MaybeVlanId.try_new
    rw [if_pos h0]
  · intro hrange
    unfold MaybeVlanId.try_new VlanId.MIN_VALUE VlanId.MAX_VALUE
    rw [if_neg (by omega), if_pos (by omega)]
  · intro hbig
    unfold MaybeVlanId.try_new VlanId.MIN_VALUE VlanId.MAX_VALUE
    rw [if_neg (by omega), if_neg (by omega)]

/-- Witness for C2 at the concrete input 7. -/
theorem maybeVlanId_try_new_classify_witness :
    (7 : Nat) < 65536 ∧
    (((7 : Nat) = 0 → MaybeVlanId.try_new 7 = Except.ok MaybeVlanId.NATIVE) ∧
    (1 ≤ (7 : Nat) ∧ (7 : Nat) ≤ 4094 →
      MaybeVlanId.try_new 7 =
        Except.ok (MaybeVlanId.Tagged (VlanId.new_unchecked 7))) ∧
    (4095 ≤ (7 : Nat) → MaybeVlanId.try_new 7 = Except.error InvalidVlanId.mk) ∧
    MaybeVlanId.try_new 0 = Except.ok MaybeVlanId.NATIVE ∧
    MaybeVlanId.try_new 1 = Except.ok MaybeVlanId.MIN_TAGGED_VLAN ∧
    MaybeVlanId.try_new 4094 = Except.ok MaybeVlanId.MAX_TAGGED_VLAN) :=
  ⟨by decide, maybeVlanId_try_new_classify 7 (by decide)⟩

/-- C3: round-trip law — for every `u` in `[0, 4094]`, `MaybeVlanId::try_new`
succeeds and `as_raw_vlan_id` of the result is exactly `u`; for every `v` in
`[1, 4094]`, `VlanId::try_new` succeeds and `as_raw_vlan_id` of the result is
exactly `v`. -/
theorem vlan_round_trip (u v : Nat) (hu : u ≤ 4094) (hv1 : 1 ≤ v)
    (hv2 : v ≤ 4094) :
    (∃ m, MaybeVlanId.try_new u = Except.ok m ∧
      AsRawVlanId.as_raw_vlan_id m = u) ∧
    (∃ w, VlanId.try_new v = Except.ok w ∧
      AsRawVlanId.as_raw_vlan_id w = v) := by
  constructor
  · by_cases h0 : u = 0
    · subst h0
      exact ⟨MaybeVlanId.NATIVE, rfl, rfl⟩
    · refine ⟨MaybeVlanId.Tagged (VlanId.new_unchecked u), ?_, rfl⟩
      unfold MaybeVlanId.try_new VlanId.MIN_VALUE VlanId.MAX_VALUE
      rw [if_neg h0, if_pos (by omega)]
  · refine ⟨VlanId.new_unchecked v, ?_, rfl⟩
    unfold VlanId.try_new VlanId.MIN_VALUE VlanId.MAX_VALUE
    rw [if_neg (by omega)]
    rfl

/-- Witness for C3 at `u = 0` and `v = 4094`. -/
theorem vlan_round_trip_witness :
    (0 : Nat) ≤ 4094 ∧ (1 : Nat) ≤ 4094 ∧
    ((∃ m, MaybeVlanId.try_new 0 = Except.ok m ∧
      AsRawVlanId.as_raw_vlan_id m = 0) ∧
    (∃ w, VlanId.try_new 4094 = Except.ok w ∧
      AsRawVlanId.as_raw_vlan_id w = 4094)) :=
  ⟨by decide, by decide,
    vlan_round_trip 0 4094 (by decide) (by decide) (by decide)⟩

/-- C4: every `VlanId` reachable through the public API (`try_new`,
`TryFrom<u16>`, the `MIN`/`MAX`/`ONE` constants and the `Tagged` payloads
built by `MaybeVlanId::try_new`) has `as_u16` in `[1, 4094]`. -/
theorem vlanId_reachable_invariant (w : VlanId) (h : VlanId.Reachable w) :
    1 ≤ w.as_u16 ∧ w.as_u16 ≤ 4094 := by
  induction h with
  | of_try_new v w hw =>
    obtain ⟨hinner, h1, h2⟩ := vlanId_try_new_ok_inner hw
    unfold VlanId.as_u16
    omega
  | of_try_from v w hw =>
    obtain ⟨hinner, h1, h2⟩ := vlanId_try_new_ok_inner hw
    unfold VlanId.as_u16
    omega
  | of_min => exact ⟨le_refl 1, by norm_num [VlanId.MIN, VlanId.MIN_VALUE,
      VlanId.new_unchecked, VlanId.as_u16]⟩
  | of_max => exact ⟨by norm_num [VlanId.MAX, VlanId.MAX_VALUE,
      VlanId.new_unchecked, VlanId.as_u16], le_refl 4094⟩
  | of_one => exact ⟨le_refl 1, by norm_num [VlanId.ONE, VlanId.MIN,
      VlanId.MIN_VALUE, VlanId.new_unchecked, VlanId.as_u16]⟩
  | of_maybe_try_new v w hw =>
    obtain ⟨hinner, h1, h2⟩ := maybeVlanId_try_new_ok_tagged_inner hw
    unfold VlanId.as_u16
    omega

/-- Witness for C4 at `VlanId::MAX`, reachable as a constant. -/
theorem vlanId_reachable_invariant_witness :
    VlanId.Reachable VlanId.MAX ∧
    (1 ≤ VlanId.MAX.as_u16 ∧ VlanId.MAX.as_u16 ≤ 4094) :=
  ⟨VlanId.Reachable.of_max,
    vlanId_reachable_invariant VlanId.MAX VlanId.Reachable.of_max⟩

/-- C5: `MaybeVlanId::NATIVE` equals the unit-constructed `NativeVlanId`
under the library's raw-value equality, the unit-constructed `NativeVlanId`
has raw value 0, and for every valid tag built by `VlanId::try_new` the
`Tagged` wrapping equals the bare `VlanId` (equality is decided by comparing
raw values). -/
theorem vlan_cross_type_equiv (v : Nat) (w : VlanId) (_h1 : 1 ≤ v)
    (_h2 : v ≤ 4094) (_hw : VlanId.try_new v = Except.ok w) :
    eqByRaw MaybeVlanId.NATIVE NativeVlanId.default = true ∧
    AsRawVlanId.as_raw_vlan_id NativeVlanId.default = 0 ∧
    eqByRaw (MaybeVlanId.Tagged w) w = true ∧
    eqByRaw w (MaybeVlanId.Tagged w) = true := by
  refine ⟨rfl, rfl, ?_, ?_⟩
  · simp [eqByRaw, MaybeVlanId.as_raw_vlan_id, AsRawVlanId.as_raw_vlan_id]
  · simp [eqByRaw, MaybeVlanId.as_raw_vlan_id, AsRawVlanId.as_raw_vlan_id]

/-- Witness for C5 at the tag value 100. -/
theorem vlan_cross_type_equiv_witness :
    (1 : Nat) ≤ 100 ∧ (100 : Nat) ≤ 4094 ∧
    VlanId.try_new 100 = Except.ok (VlanId.new_unchecked 100) ∧
    (eqByRaw MaybeVlanId.NATIVE NativeVlanId.default = true ∧
    AsRawVlanId.as_raw_vlan_id NativeVlanId.default = 0 ∧
    eqByRaw (MaybeVlanId.Tagged (VlanId.new_unchecked 100))
      (VlanId.new_unchecked 100) = true ∧
    eqByRaw (VlanId.new_unchecked 100)
      (MaybeVlanId.Tagged (VlanId.new_unchecked 100)) = true) :=
  ⟨by decide, by decide, by decide,
    vlan_cross_type_equiv 100 (VlanId.new_unchecked 100) (by decide)
      (by decide) (by decide)⟩

/-- C6: ordering consistency — for any two values of raw-value-exposing types
whose raw values `a < b` lie in the valid domain, the library's comparison
(shared by all three types and their mixed-type impls) yields strictly
less-than, and symmetrically greater-than, never equality. -/
theorem vlan_order_consistency {α β : Type} [AsRawVlanId α] [AsRawVlanId β]
    (x : α) (y : β) (a b : Nat) (_ha : a ≤ 4094) (_hb : b ≤ 4094)
    (hx : AsRawVlanId.as_raw_vlan_id x = a)
    (hy : AsRawVlanId.as_raw_vlan_id y = b) (hab : a < b) :
    cmpByRaw x y = some Ordering.lt ∧ cmpByRaw y x = some Ordering.gt ∧
    eqByRaw x y = false ∧ eqByRaw y x = false := by
  refine ⟨?_, ?_, ?_, ?_⟩
  · unfold cmpByRaw
    rw [hx, hy]
    exact congrArg some (Nat.compare_eq_lt.2 hab)
  · unfold cmpByRaw
    rw [hx, hy]
    exact congrArg some (Nat.compare_eq_gt.2 hab)
  · unfold eqByRaw
    rw [hx, hy]
    simp only [beq_eq_false_iff_ne, ne_eq]
    omega
  · unfold eqByRaw
    rw [hx, hy]
    simp only [beq_eq_false_iff_ne, ne_eq]
    omega

/-- Witness for C6: `VlanId::MIN` (raw 1) against
`MaybeVlanId::MAX_TAGGED_VLAN` (raw 4094), a mixed-type comparison. -/
theorem vlan_order_consistency_witness :
    (1 : Nat) ≤ 4094 ∧ (1 : Nat) < 4094 ∧
    (cmpByRaw VlanId.MIN MaybeVlanId.MAX_TAGGED_VLAN = some Ordering.lt ∧
    cmpByRaw MaybeVlanId.MAX_TAGGED_VLAN VlanId.MIN = some Ordering.gt ∧
    eqByRaw VlanId.MIN MaybeVlanId.MAX_TAGGED_VLAN = false ∧
    eqByRaw MaybeVlanId.MAX_TAGGED_VLAN VlanId.MIN = false) :=
  ⟨by decide, by decide,
    vlan_order_consistency VlanId.MIN MaybeVlanId.MAX_TAGGED_VLAN 1 4094
      (by decide) (by decide) rfl rfl (by decide)⟩

/-- C7: the derived 2-byte encoding of any conforming value is the big-endian
byte pair of its raw `u16` value; concretely the tagged id 4094 encodes as
`[0x0F, 0xFE]`, the native id as `[0x00, 0x00]`, and
`MaybeVlanId::try_new 1` as `[0x00, 0x01]`. -/
theorem vlan_be_bytes_spec {α : Type} [AsRawVlanId α] (x : α)
    (h : AsRawVlanId.as_raw_vlan_id x < 65536) :
    AsRawVlanId.as_be_bytes x =
      [AsRawVlanId.as_raw_vlan_id x / 256,
        AsRawVlanId.as_raw_vlan_id x % 256] ∧
    AsRawVlanId.as_raw_vlan_id x / 256 * 256 +
        AsRawVlanId.as_raw_vlan_id x % 256 =
      AsRawVlanId.as_raw_vlan_id x ∧
    AsRawVlanId.as_be_bytes VlanId.MAX = [15, 254] ∧
    AsRawVlanId.as_be_bytes NativeVlanId.default = [0, 0] ∧
    MaybeVlanId.try_new 1 = Except.ok MaybeVlanId.MIN_TAGGED_VLAN ∧
    AsRawVlanId.as_be_bytes MaybeVlanId.MIN_TAGGED_VLAN = [0, 1] := by
  refine ⟨?_, by omega, by decide, by decide, by decide, by decide⟩
  unfold AsRawVlanId.as_be_bytes
  have hhi : AsRawVlanId.as_raw_vlan_id x / 256 % 256 =
      AsRawVlanId.as_raw_vlan_id x / 256 := by omega
  rw [hhi]

/-- Witness for C7 at `VlanId::MAX`. -/
theorem vlan_be_bytes_spec_witness :
    AsRawVlanId.as_raw_vlan_id VlanId.MAX < 65536 ∧
    (AsRawVlanId.as_be_bytes VlanId.MAX =
      [AsRawVlanId.as_raw_vlan_id VlanId.MAX / 256,
        AsRawVlanId.as_raw_vlan_id VlanId.MAX % 256] ∧
    AsRawVlanId.as_raw_vlan_id VlanId.MAX / 256 * 256 +
        AsRawVlanId.as_raw_vlan_id VlanId.MAX % 256 =
      AsRawVlanId.as_raw_vlan_id VlanId.MAX ∧
    AsRawVlanId.as_be_bytes VlanId.MAX = [15, 254] ∧
    AsRawVlanId.as_be_bytes NativeVlanId.default = [0, 0] ∧
    MaybeVlanId.try_new 1 = Except.ok MaybeVlanId.MIN_TAGGED_VLAN ∧
    AsRawVlanId.as_be_bytes MaybeVlanId.MIN_TAGGED_VLAN = [0, 1]) :=
  ⟨by decide, vlan_be_bytes_spec VlanId.MAX (by decide)⟩

/-- C8: `NativeVlanId::try_from v` succeeds exactly when `v = 0` and fails
with `InvalidVlanId` for every nonzero `v`; the unit constructor always
yields the native value, whose raw value is 0 (as is every
`NativeVlanId`'s). -/
theorem nativeVlanId_try_from_spec (v : Nat) (_hv : v < 65536) :
    (NativeVlanId.try_from v = Except.ok NativeVlanId.default ↔ v = 0) ∧
    (v ≠ 0 → NativeVlanId.try_from v = Except.error InvalidVlanId.mk) ∧
    AsRawVlanId.as_raw_vlan_id NativeVlanId.default = 0 ∧
    (∀ n : NativeVlanId, AsRawVlanId.as_raw_vlan_id n = 0) := by
  refine ⟨?_, ?_, rfl, fun n => rfl⟩
  · unfold NativeVlanId.try_from NativeVlanId.VALUE
    by_cases h0 : v = 0
    · rw [if_pos h0]
      exact iff_of_true rfl h0
    · rw [if_neg h0]
      exact iff_of_false (by simp) h0
  · intro hne
    unfold NativeVlanId.try_from NativeVlanId.VALUE
    rw [if_neg hne]

/-- Witness for C8 at the input 0. -/
theorem nativeVlanId_try_from_spec_witness :
    (0 : Nat) < 65536 ∧
    ((NativeVlanId.try_from 0 = Except.ok NativeVlanId.default ↔
      (0 : Nat) = 0) ∧
    ((0 : Nat) ≠ 0 → NativeVlanId.try_from 0 = Except.error InvalidVlanId.mk) ∧
    AsRawVlanId.as_raw_vlan_id NativeVlanId.default = 0 ∧
    (∀ n : NativeVlanId, AsRawVlanId.as_raw_vlan_id n = 0)) :=
  ⟨by decide, nativeVlanId_try_from_spec 0 (by decide)⟩

/-- C10: the two raw-value projections of `MaybeVlanId` agree everywhere —
`as_u16`, the trait accessor `as_raw_vlan_id`, the `From<MaybeVlanId> for
u16` conversion and `Display` all denote the same number. -/
theorem maybeVlanId_as_u16_eq_raw (m : MaybeVlanId) :
    m.as_u16 = AsRawVlanId.as_raw_vlan_id m ∧
    u16_from_MaybeVlanId m = m.as_u16 ∧
    m.display = toString (AsRawVlanId.as_raw_vlan_id m) := by
  cases m <;> exact ⟨rfl, rfl, rfl⟩

/-!
The optional serde boundary (lib.rs:326-400).  The parts that live in this
repository are the visitor `visit_u16` methods, which route through
`TryFrom<u16>` and wrap `InvalidVlanId` (whose `Display` is
"INVALID_VLAN_ID") into a framework error, and the `Serialize` impls, which
emit `as_u16` as a plain integer.  Which visitor method the framework
invokes for a given wire input is decided by the external framework (the
impls request `deserialize_str`), so only the in-repo halves are embedded
and related here.
-/

/-- `VlanIdVisitor::visit_u16` (lib.rs:341-347). -/
def VlanIdVisitor.visit_u16 (v : Nat) : Except String VlanId :=
  match VlanId.try_from v with
  | Except.ok x => Except.ok x
  | Except.error _ => Except.error "INVALID_VLAN_ID"

/-- `MaybeVlanIdVisitor::visit_u16` (lib.rs:375-381). -/
def MaybeVlanIdVisitor.visit_u16 (v : Nat) : Except String MaybeVlanId :=
  match MaybeVlanId.try_from v with
  | Except.ok x => Except.ok x
  | Except.error _ => Except.error "INVALID_VLAN_ID"

/-- `impl Serialize for VlanId` (lib.rs:358-365): `serialize_u16` of
`as_u16`. -/
def VlanId.serialize (v : VlanId) : Nat := v.as_u16

/-- `impl Serialize for MaybeVlanId` (lib.rs:392-399). -/
def MaybeVlanId.serialize (m : MaybeVlanId) : Nat := m.as_u16

/-- The visitor `visit_u16` methods accept exactly what the programmatic
constructors accept, and the serialize impls emit the raw value. -/
theorem serde_visitor_matches_try_new (v : Nat) (m : MaybeVlanId)
    (w : VlanId) :
    (VlanIdVisitor.visit_u16 v).isOk = (VlanId.try_new v).isOk ∧
    (MaybeVlanIdVisitor.visit_u16 v).isOk = (MaybeVlanId.try_new v).isOk ∧
    VlanId.serialize w = w.as_u16 ∧
    MaybeVlanId.serialize m = m.as_u16 := by
  refine ⟨?_, ?_, rfl, rfl⟩
  · unfold VlanIdVisitor.visit_u16 VlanId.try_from
    cases h : VlanId.try_new v <;> simp [Except.isOk, Except.toBool]
  · unfold MaybeVlanIdVisitor.visit_u16 MaybeVlanId.try_from
    cases h : MaybeVlanId.try_new v <;> simp [Except.isOk, Except.toBool]
